import Mathlib

/-!
# Verification of the ski-weather backend (`src/main.py`)

Shallow embedding of the core logic of `main.py`:

* `analyze_snow_condition` — the condition classifier (lines 62–76);
* `generate_mock_weather_data` — the mock forecast generator (lines 78–119);
* `get_resorts` — the resort-listing endpoint (lines 131–142);
* `get_weather` — the weather endpoint with its 404 check and
  group-by-timestamp step (lines 145–178).

Modelling conventions:

* Python floats are modelled as exact rationals (`ℚ`).  All numeric
  literals in the source are short decimals, and every temperature that
  the program ever rounds has a tenths digit that is never exactly
  half-way between two representable tenths, so exact-decimal arithmetic
  agrees with the program's binary floating point on every value that
  actually occurs.
* `round(x, 1)` is Python's banker's rounding, embedded exactly
  (`roundHalfEven`, round-half-to-even on the scaled value).
* Timestamps: the source uses `datetime.utcnow() + timedelta(hours=i*3)`
  and keys the grouping step on the ISO string of that datetime, which is
  injective in `i` for a fixed anchor.  We model a timestamp as the number
  of hours after the anchor, i.e. `3 * i`, which preserves exactly the
  (in)equalities the program depends on.
* The emoji icon strings of the source contain the emoji presentation
  selector U+FE0F after U+2601 ☁, U+2744 ❄, U+1F328 🌨 and U+1F327 🌧.
  To keep the invisible characters auditable, every icon string is built
  explicitly from its code points.
-/

/-- U+FE0F, the emoji (variation) presentation selector. -/
def vs16 : Char := Char.ofNat 0xFE0F

/-- `"☁️"` (U+2601 U+FE0F) as returned at `main.py:65`. -/
def iconCloud : String := String.mk [Char.ofNat 0x2601, vs16]

/-- `"❄️💎"` (U+2744 U+FE0F U+1F48E) as returned at `main.py:68`. -/
def iconChampagne : String := String.mk [Char.ofNat 0x2744, vs16, Char.ofNat 0x1F48E]

/-- `"❄️"` (U+2744 U+FE0F) as returned at `main.py:70`. -/
def iconPowder : String := String.mk [Char.ofNat 0x2744, vs16]

/-- `"🌨️"` (U+1F328 U+FE0F) as returned at `main.py:72`. -/
def iconSnow : String := String.mk [Char.ofNat 0x1F328, vs16]

/-- `"💧❄️"` (U+1F4A7 U+2744 U+FE0F) as returned at `main.py:74`. -/
def iconSleet : String := String.mk [Char.ofNat 0x1F4A7, Char.ofNat 0x2744, vs16]

/-- `"🌧️"` (U+1F327 U+FE0F) as returned at `main.py:76`. -/
def iconRain : String := String.mk [Char.ofNat 0x1F327, vs16]

/-- The cloud icon exactly as the spec writes it: bare U+2601, no U+FE0F. -/
def specIconCloud : String := String.mk [Char.ofNat 0x2601]

/-- The champagne-powder icon exactly as the spec writes it:
U+2744 U+1F48E, no U+FE0F. -/
def specIconChampagne : String := String.mk [Char.ofNat 0x2744, Char.ofNat 0x1F48E]

/-- `analyze_snow_condition` (`main.py:62-76`): maps
`(temp_c, precip_mm)` to a `(condition, icon)` pair. -/
def analyze_snow_condition (temp_c precip_mm : ℚ) : String × String :=
  if precip_mm < 0.1 then ("Cloudy/Clear", iconCloud)
  else if temp_c ≤ -12 then ("Champagne Powder", iconChampagne)
  else if -12 < temp_c ∧ temp_c ≤ -3 then ("Powder", iconPowder)
  else if -3 < temp_c ∧ temp_c ≤ 0.5 then ("Snow", iconSnow)
  else if 0.5 < temp_c ∧ temp_c ≤ 2.0 then ("Wet Snow/Sleet", iconSleet)
  else ("Rain", iconRain)

/-- Round-half-to-even to the nearest integer: Python's `round` applied to
an exact value.  (On every value this development rounds, the argument is
never exactly half-way, so the tie rule is never exercised.) -/
def roundHalfEven (x : ℚ) : ℤ :=
  let f := ⌊x⌋
  let r := x - (f : ℚ)
  if r < 1/2 then f
  else if 1/2 < r then f + 1
  else if f % 2 = 0 then f else f + 1

/-- Python's `round(x, 1)`: round to one decimal place. -/
def round1 (x : ℚ) : ℚ := (roundHalfEven (x * 10) : ℚ) / 10

/-- Altitude profile of a resort (`RESORTS[..]["altitudes"]`,
`main.py:32-36`). -/
structure Altitudes where
  top : ℤ
  mid : ℤ
  bot : ℤ
deriving DecidableEq, Repr

/-- One resort record of the `RESORTS` table (`main.py:26-38`). -/
structure Resort where
  name : String
  location : String
  lat : ℚ
  lon : ℚ
  altitudes : Altitudes
deriving DecidableEq, Repr

/-- The Sunshine Village record (`main.py:27-37`). -/
def sunshineVillage : Resort :=
  { name := "Sunshine Village"
    location := "Banff, Canada"
    lat := 51.1164
    lon := -115.7631
    altitudes := { top := 2730, mid := 2200, bot := 1660 } }

/-- The module-level `RESORTS` dict (`main.py:26-38`), as an association
list in registration order (Python dicts preserve insertion order). -/
def RESORTS : List (String × Resort) := [("sunshine_village", sunshineVillage)]

/-- `RESORTS.get(resort_id)`: first (only) binding for the key, or
`none`. -/
def resortsGet (catalog : List (String × Resort)) (resort_id : String) : Option Resort :=
  (catalog.find? (fun p => p.1 = resort_id)).map (·.2)

/-- One element of the flat list built by `generate_mock_weather_data`
(`main.py:109-117`): a layer record still carrying its timestamp. -/
structure WeatherEntry where
  timestamp : ℕ
  level : String
  altitude : ℤ
  temperature : ℚ
  precipitation : ℚ
  condition : String
  icon : String
deriving DecidableEq, Repr

/-- The hardcoded precipitation series (`main.py:84`). -/
def precipSeries : List ℚ :=
  [0.0, 2.5, 5.0, 1.5, 0.0, 0.0, 3.0, 6.0, 2.0, 0.0, 0.0, 0.0]

/-- The hardcoded bottom-temperature series (`main.py:87`). -/
def base_temps_bot : List ℚ :=
  [-1.0, 0.0, 1.5, 2.5, 1.0, -2.0, -3.0, -1.0, 0.5, 1.0, -1.0, -2.0]

/-- `periods = 12` (`main.py:83`). -/
def periods : ℕ := 12

/-- One iteration of the loop of `generate_mock_weather_data`
(`main.py:92-117`): the three layer entries (Top, Mid, Bot, in that
order) appended to `data` for period `i`.  Parametrised by the two base
series so that behaviour on series of other lengths (the `i < len(...)`
guards at lines 96 and 101) is expressible; `List.getD i 0.0` is exactly
`xs[i] if i < len(xs) else 0.0`. -/
def entryBlock (resort : Resort) (precip base_temps : List ℚ) (i : ℕ) : List WeatherEntry :=
  let timestamp := i * 3
  let t_bot := base_temps.getD i 0.0
  let t_mid := t_bot - (((resort.altitudes.mid - resort.altitudes.bot : ℤ) : ℚ) / 1000 * 6.5)
  let t_top := t_bot - (((resort.altitudes.top - resort.altitudes.bot : ℤ) : ℚ) / 1000 * 6.5)
  let p_val := precip.getD i 0.0
  [("Top", resort.altitudes.top, round1 t_top),
   ("Mid", resort.altitudes.mid, round1 t_mid),
   ("Bot", resort.altitudes.bot, round1 t_bot)].map fun lat_ =>
    let condition_icon := analyze_snow_condition lat_.2.2 p_val
    { timestamp := timestamp
      level := lat_.1
      altitude := lat_.2.1
      temperature := lat_.2.2
      precipitation := p_val
      condition := condition_icon.1
      icon := condition_icon.2 }

/-- The whole loop of `generate_mock_weather_data` (`main.py:92-117`):
`for i in range(periods)`, appending the three layer entries of each
period to a flat list. -/
def generateCore (resort : Resort) (precip base_temps : List ℚ) : List WeatherEntry :=
  (List.range periods).flatMap (entryBlock resort precip base_temps)

/-- `generate_mock_weather_data` (`main.py:78-119`): looks up the resort,
returns `[]` for an unknown id, otherwise runs the loop on the hardcoded
series. -/
def generate_mock_weather_data (resort_id : String) : List WeatherEntry :=
  match resortsGet RESORTS resort_id with
  | none => []
  | some resort => generateCore resort precipSeries base_temps_bot


/-- A layer as served to the client (`WeatherLayer`, `main.py:42-48`):
a weather entry with its `timestamp` field removed (`main.py:160-161`). -/
structure WeatherLayer where
  level : String
  altitude : ℤ
  temperature : ℚ
  precipitation : ℚ
  condition : String
  icon : String
deriving DecidableEq, Repr

/-- `ForecastPoint` (`main.py:50-52`): a timestamp with its layers. -/
structure ForecastPoint where
  timestamp : ℕ
  layers : List WeatherLayer
deriving DecidableEq, Repr

/-- Dropping the `timestamp` field of an entry (`main.py:160-161`). -/
def dropTimestamp (e : WeatherEntry) : WeatherLayer :=
  { level := e.level
    altitude := e.altitude
    temperature := e.temperature
    precipitation := e.precipitation
    condition := e.condition
    icon := e.icon }

/-- One step of the grouping loop of `get_weather` (`main.py:155-162`):
append the entry to its timestamp's bucket, creating the bucket at the
end if the timestamp is new (Python dicts preserve insertion order). -/
def insertEntry (acc : List (ℕ × List WeatherLayer)) (e : WeatherEntry) :
    List (ℕ × List WeatherLayer) :=
  if acc.any (fun g => g.1 = e.timestamp) then
    acc.map fun g =>
      if g.1 = e.timestamp then (g.1, g.2 ++ [dropTimestamp e]) else g
  else
    acc ++ [(e.timestamp, [dropTimestamp e])]

/-- The whole group-by-timestamp loop (`main.py:154-162`). -/
def groupByTimestamp (entries : List WeatherEntry) : List (ℕ × List WeatherLayer) :=
  entries.foldl insertEntry []

/-- What the grouping loop produces for period `i`: the timestamp paired
with the period's three layer entries, stripped of their timestamps.
(`groupByTimestamp_generateCore` proves that grouping the generator
output yields exactly one such pair per period, in period order.) -/
def expectedPoint (resort : Resort) (precip base_temps : List ℚ) (i : ℕ) :
    ℕ × List WeatherLayer :=
  (i * 3, (entryBlock resort precip base_temps i).map dropTimestamp)

/-- The body of `ResortWeatherResponse` (`main.py:54-58`). -/
structure ResortWeatherResponse where
  resort_name : String
  location : String
  lat : ℚ
  lon : ℚ
  forecasts : List ForecastPoint
deriving DecidableEq, Repr

/-- The error raised by the boundary (`HTTPException`, `main.py:149`). -/
structure HTTPError where
  status_code : ℕ
  detail : String
deriving DecidableEq, Repr

/-- `get_weather` (`main.py:145-178`): 404 for an unknown resort id,
otherwise generate, group by timestamp, and shape the response. -/
def get_weather (resort_id : String) : Except HTTPError ResortWeatherResponse :=
  match resortsGet RESORTS resort_id with
  | none => .error { status_code := 404, detail := "Resort not found" }
  | some resort =>
    let weather_data := generate_mock_weather_data resort_id
    let grouped_data := groupByTimestamp weather_data
    .ok { resort_name := resort.name
          location := resort.location
          lat := resort.lat
          lon := resort.lon
          forecasts := grouped_data.map fun g => { timestamp := g.1, layers := g.2 } }

/-- One item of the `/resorts` listing (`main.py:135-139`). -/
structure ResortListing where
  id : String
  name : String
  location : String
deriving DecidableEq, Repr

/-- `get_resorts` (`main.py:131-142`), parametrised by the catalog it
iterates (the deployed endpoint is `get_resorts RESORTS`): one listing
per catalog entry, in registration order. -/
def get_resorts (catalog : List (String × Resort)) : List ResortListing :=
  catalog.map fun p => { id := p.1, name := p.2.name, location := p.2.location }

/-- The forecast points served for a resort id: the `forecasts` field of a
successful `get_weather` response (an error response has none). -/
def forecastsOf (resort_id : String) : List ForecastPoint :=
  match get_weather resort_id with
  | .ok resp => resp.forecasts
  | .error _ => []


/-- A placeholder layer, used only as the default of `List.getD`. -/
def blankLayer : WeatherLayer := ⟨"", 0, 0, 0, "", ""⟩

/-- The layers of the forecast point that the pipeline serves for
Sunshine Village at period `i`. -/
def sunshineLayersAt (i : ℕ) : List WeatherLayer :=
  (entryBlock sunshineVillage precipSeries base_temps_bot i).map dropTimestamp

/-- The forecast point the pipeline serves for Sunshine Village at
period `i`. -/
def sunshinePointAt (i : ℕ) : ForecastPoint := ⟨i * 3, sunshineLayersAt i⟩

/-- The first (Top) layer of `sunshinePointAt i`. -/
def topLayerAt (i : ℕ) : WeatherLayer := (sunshineLayersAt i).getD 0 blankLayer

/-- The second (Mid) layer of `sunshinePointAt i`. -/
def midLayerAt (i : ℕ) : WeatherLayer := (sunshineLayersAt i).getD 1 blankLayer

/-- The third (Bot) layer of `sunshinePointAt i`. -/
def botLayerAt (i : ℕ) : WeatherLayer := (sunshineLayersAt i).getD 2 blankLayer

/-- A placeholder listing, used only as the default of `List.getD`. -/
def blankListing : ResortListing := ⟨"", "", ""⟩

/-- A placeholder catalog entry, used only as the default of `List.getD`. -/
def blankResortPair : String × Resort := ("", ⟨"", "", 0, 0, ⟨0, 0, 0⟩⟩)

-- Helper facts shared by several claims.

/-- A resort id that names no catalog entry resolves to `none`. -/
theorem resortsGet_eq_none (rid : String) (h : rid ∉ RESORTS.map Prod.fst) :
    resortsGet RESORTS rid = none := by
  have h' : ¬ ("sunshine_village" = rid) := by
    intro e
    exact h (by simp [RESORTS, ← e])
  simp [resortsGet, RESORTS, h']


-- == grouping characterization ==

lemma entryBlock_timestamp (r : Resort) (precip temps : List ℚ) (i : ℕ) :
    ∀ e ∈ entryBlock r precip temps i, e.timestamp = i * 3 := by
  intro e he
  simp only [entryBlock, List.map_cons, List.map_nil, List.mem_cons, List.not_mem_nil,
    or_false] at he
  rcases he with h | h | h <;> subst h <;> rfl

lemma entryBlock_ne_nil (r : Resort) (precip temps : List ℚ) (i : ℕ) :
    entryBlock r precip temps i ≠ [] := by
  simp [entryBlock]

lemma foldl_insertEntry_last (pre : List (ℕ × List WeatherLayer)) (t : ℕ)
    (ls : List WeatherLayer) (es : List WeatherEntry)
    (hes : ∀ e ∈ es, e.timestamp = t) (hpre : ∀ g ∈ pre, g.1 ≠ t) :
    es.foldl insertEntry (pre ++ [(t, ls)]) = pre ++ [(t, ls ++ es.map dropTimestamp)] := by
  induction es generalizing ls with
  | nil => simp
  | cons e es ih =>
    have het : e.timestamp = t := hes e (List.mem_cons_self e es)
    have hmap : pre.map
        (fun g => if g.1 = e.timestamp then (g.1, g.2 ++ [dropTimestamp e]) else g) = pre := by
      conv_rhs => rw [← List.map_id pre]
      apply List.map_congr_left
      intro g hg
      rw [if_neg (by rw [het]; exact hpre g hg)]
      rfl
    have hstep : insertEntry (pre ++ [(t, ls)]) e = pre ++ [(t, ls ++ [dropTimestamp e])] := by
      unfold insertEntry
      rw [if_pos]
      · rw [List.map_append, hmap]
        simp [het]
      · simp [List.any_append, het]
    rw [List.foldl_cons, hstep,
      ih (ls ++ [dropTimestamp e]) (fun e' h' => hes e' (List.mem_cons_of_mem _ h'))]
    simp

lemma foldl_insertEntry_block (acc : List (ℕ × List WeatherLayer)) (t : ℕ)
    (es : List WeatherEntry) (hes : ∀ e ∈ es, e.timestamp = t) (hne : es ≠ [])
    (hacc : ∀ g ∈ acc, g.1 ≠ t) :
    es.foldl insertEntry acc = acc ++ [(t, es.map dropTimestamp)] := by
  cases es with
  | nil => exact absurd rfl hne
  | cons e es =>
    have het : e.timestamp = t := hes e (List.mem_cons_self e es)
    have hstep : insertEntry acc e = acc ++ [(t, [dropTimestamp e])] := by
      unfold insertEntry
      rw [if_neg]
      · rw [het]
      · intro hcontra
        simp only [List.any_eq_true, decide_eq_true_eq] at hcontra
        obtain ⟨g, hg, hgeq⟩ := hcontra
        exact hacc g hg (by rw [← het]; exact hgeq)
    rw [List.foldl_cons, hstep,
      foldl_insertEntry_last acc t [dropTimestamp e] es
        (fun e' h' => hes e' (List.mem_cons_of_mem _ h')) hacc]
    simp

lemma foldl_insertEntry_range' (r : Resort) (precip temps : List ℚ) :
    ∀ (m k : ℕ) (acc : List (ℕ × List WeatherLayer)), (∀ g ∈ acc, g.1 < k * 3) →
      ((List.range' k m).flatMap (entryBlock r precip temps)).foldl insertEntry acc
        = acc ++ (List.range' k m).map (expectedPoint r precip temps) := by
  intro m
  induction m with
  | zero => intro k acc _; simp
  | succ m ih =>
    intro k acc hacc
    rw [List.range'_succ, List.flatMap_cons, List.foldl_append]
    rw [foldl_insertEntry_block acc (k * 3) (entryBlock r precip temps k)
      (entryBlock_timestamp r precip temps k) (entryBlock_ne_nil r precip temps k)
      (fun g hg => Nat.ne_of_lt (hacc g hg))]
    rw [ih (k + 1) (acc ++ [(k * 3, (entryBlock r precip temps k).map dropTimestamp)]) ?_]
    · simp [expectedPoint]
    · intro g hg
      rcases List.mem_append.mp hg with h | h
      · exact lt_trans (hacc g h) (by omega)
      · have : g = (k * 3, (entryBlock r precip temps k).map dropTimestamp) := by
          simpa using h
        subst this
        omega

theorem groupByTimestamp_generateCore (r : Resort) (precip temps : List ℚ) :
    groupByTimestamp (generateCore r precip temps)
      = (List.range periods).map (expectedPoint r precip temps) := by
  have h := foldl_insertEntry_range' r precip temps periods 0 [] (by simp)
  simpa [groupByTimestamp, generateCore, List.range_eq_range' periods] using h

lemma resortsGet_sunshine : resortsGet RESORTS "sunshine_village" = some sunshineVillage := rfl

lemma forecastsOf_sunshine :
    forecastsOf "sunshine_village"
      = (List.range periods).map (fun i =>
          { timestamp := i * 3
            layers := (entryBlock sunshineVillage precipSeries base_temps_bot i).map
              dropTimestamp : ForecastPoint }) := by
  simp [forecastsOf, get_weather, resortsGet_sunshine, generate_mock_weather_data,
    groupByTimestamp_generateCore, expectedPoint, Function.comp]

lemma entryBlock_layers (r : Resort) (precip temps : List ℚ) (i : ℕ) :
    (entryBlock r precip temps i).map dropTimestamp =
      [{ level := "Top", altitude := r.altitudes.top
         temperature := round1 (temps.getD i 0.0 -
           ((r.altitudes.top - r.altitudes.bot : ℤ) : ℚ) / 1000 * 6.5)
         precipitation := precip.getD i 0.0
         condition := (analyze_snow_condition (round1 (temps.getD i 0.0 -
           ((r.altitudes.top - r.altitudes.bot : ℤ) : ℚ) / 1000 * 6.5)) (precip.getD i 0.0)).1
         icon := (analyze_snow_condition (round1 (temps.getD i 0.0 -
           ((r.altitudes.top - r.altitudes.bot : ℤ) : ℚ) / 1000 * 6.5)) (precip.getD i 0.0)).2 },
       { level := "Mid", altitude := r.altitudes.mid
         temperature := round1 (temps.getD i 0.0 -
           ((r.altitudes.mid - r.altitudes.bot : ℤ) : ℚ) / 1000 * 6.5)
         precipitation := precip.getD i 0.0
         condition := (analyze_snow_condition (round1 (temps.getD i 0.0 -
           ((r.altitudes.mid - r.altitudes.bot : ℤ) : ℚ) / 1000 * 6.5)) (precip.getD i 0.0)).1
         icon := (analyze_snow_condition (round1 (temps.getD i 0.0 -
           ((r.altitudes.mid - r.altitudes.bot : ℤ) : ℚ) / 1000 * 6.5)) (precip.getD i 0.0)).2 },
       { level := "Bot", altitude := r.altitudes.bot
         temperature := round1 (temps.getD i 0.0)
         precipitation := precip.getD i 0.0
         condition := (analyze_snow_condition (round1 (temps.getD i 0.0)) (precip.getD i 0.0)).1
         icon := (analyze_snow_condition (round1 (temps.getD i 0.0)) (precip.getD i 0.0)).2 }] :=
  rfl

-- rounding monotonicity
lemma roundHalfEven_le (x : ℚ) : roundHalfEven x ≤ ⌊x⌋ + 1 := by
  dsimp only [roundHalfEven]
  split_ifs <;> omega

lemma le_roundHalfEven (x : ℚ) : ⌊x⌋ ≤ roundHalfEven x := by
  dsimp only [roundHalfEven]
  split_ifs <;> omega

lemma roundHalfEven_mono {x y : ℚ} (h : x ≤ y) : roundHalfEven x ≤ roundHalfEven y := by
  have hf : ⌊x⌋ ≤ ⌊y⌋ := Int.floor_le_floor h
  rcases lt_or_eq_of_le hf with hlt | heq
  · calc roundHalfEven x ≤ ⌊x⌋ + 1 := roundHalfEven_le x
      _ ≤ ⌊y⌋ := by omega
      _ ≤ roundHalfEven y := le_roundHalfEven y
  · have hxr : x - (⌊x⌋ : ℚ) ≤ y - (⌊y⌋ : ℚ) := by
      rw [← heq]
      linarith
    dsimp only [roundHalfEven]
    rw [← heq]
    split_ifs <;> first | omega | linarith

lemma round1_mono {x y : ℚ} (h : x ≤ y) : round1 x ≤ round1 y := by
  unfold round1
  have hm : roundHalfEven (x * 10) ≤ roundHalfEven (y * 10) :=
    roundHalfEven_mono (by linarith)
  have hc : ((roundHalfEven (x * 10) : ℤ) : ℚ) ≤ ((roundHalfEven (y * 10) : ℤ) : ℚ) := by
    exact_mod_cast hm
  linarith

lemma analyze_eq_cloudy (t p : ℚ) (hp : p < 0.1) :
    analyze_snow_condition t p = ("Cloudy/Clear", iconCloud) := by
  simp only [analyze_snow_condition]
  rw [if_pos hp]

lemma analyze_eq_champagne (t p : ℚ) (hp : 0.1 ≤ p) (h : t ≤ -12) :
    analyze_snow_condition t p = ("Champagne Powder", iconChampagne) := by
  simp only [analyze_snow_condition]
  rw [if_neg (not_lt.mpr hp), if_pos h]

lemma analyze_eq_powder (t p : ℚ) (hp : 0.1 ≤ p) (h1 : -12 < t) (h2 : t ≤ -3) :
    analyze_snow_condition t p = ("Powder", iconPowder) := by
  simp only [analyze_snow_condition]
  rw [if_neg (not_lt.mpr hp), if_neg (not_le.mpr h1), if_pos ⟨h1, h2⟩]

lemma analyze_eq_snow (t p : ℚ) (hp : 0.1 ≤ p) (h1 : -3 < t) (h2 : t ≤ 0.5) :
    analyze_snow_condition t p = ("Snow", iconSnow) := by
  have hb1 : ¬ t ≤ -12 := by intro h; norm_num at h1 ⊢; linarith
  have hb2 : ¬ (-12 < t ∧ t ≤ -3) := by rintro ⟨-, h⟩; linarith
  simp only [analyze_snow_condition]
  rw [if_neg (not_lt.mpr hp), if_neg hb1, if_neg hb2, if_pos ⟨h1, h2⟩]

lemma analyze_eq_sleet (t p : ℚ) (hp : 0.1 ≤ p) (h1 : 0.5 < t) (h2 : t ≤ 2.0) :
    analyze_snow_condition t p = ("Wet Snow/Sleet", iconSleet) := by
  have hb1 : ¬ t ≤ -12 := by intro h; norm_num at h1 ⊢; linarith
  have hb2 : ¬ (-12 < t ∧ t ≤ -3) := by rintro ⟨-, h⟩; norm_num at h1 h ⊢; linarith
  have hb3 : ¬ (-3 < t ∧ t ≤ 0.5) := by rintro ⟨-, h⟩; linarith
  simp only [analyze_snow_condition]
  rw [if_neg (not_lt.mpr hp), if_neg hb1, if_neg hb2, if_neg hb3, if_pos ⟨h1, h2⟩]

lemma analyze_eq_rain (t p : ℚ) (hp : 0.1 ≤ p) (h1 : 2.0 < t) :
    analyze_snow_condition t p = ("Rain", iconRain) := by
  have hb1 : ¬ t ≤ -12 := by intro h; norm_num at h1 ⊢; linarith
  have hb2 : ¬ (-12 < t ∧ t ≤ -3) := by rintro ⟨-, h⟩; norm_num at h1 ⊢; linarith
  have hb3 : ¬ (-3 < t ∧ t ≤ 0.5) := by rintro ⟨-, h⟩; norm_num at h1 h ⊢; linarith
  have hb4 : ¬ (0.5 < t ∧ t ≤ 2.0) := by rintro ⟨-, h⟩; norm_num at h1 h ⊢; linarith
  simp only [analyze_snow_condition]
  rw [if_neg (not_lt.mpr hp), if_neg hb1, if_neg hb2, if_neg hb3, if_neg hb4]

lemma round1_eq_down (x : ℚ) (m : ℤ) (h1 : (m : ℚ) ≤ x * 10) (h2 : x * 10 < m + 1/2) :
    round1 x = (m : ℚ) / 10 := by
  have hf : ⌊x * 10⌋ = m := Int.floor_eq_iff.mpr ⟨h1, by linarith⟩
  unfold round1
  dsimp only [roundHalfEven]
  rw [hf, if_pos (by linarith)]

lemma round1_eq_up (x : ℚ) (m : ℤ) (h1 : (m : ℚ) + 1/2 < x * 10) (h2 : x * 10 < m + 1) :
    round1 x = ((m : ℤ) + 1 : ℤ) / (10 : ℚ) := by
  have hf : ⌊x * 10⌋ = m := Int.floor_eq_iff.mpr ⟨by linarith, by linarith⟩
  unfold round1
  dsimp only [roundHalfEven]
  rw [hf, if_neg (by linarith), if_pos (by linarith)]

lemma forecastsOf_eq_nil (resort_id : String) (h : ¬ "sunshine_village" = resort_id) :
    forecastsOf resort_id = [] := by
  have hnone : resortsGet RESORTS resort_id = none :=
    resortsGet_eq_none resort_id (by simpa [RESORTS] using fun e => h e.symm)
  simp [forecastsOf, get_weather, hnone]

/-- C1: for every resort and every ForecastPoint produced by the forecast
generator, the Top layer's temperature is at most the Mid layer's, which is
at most the Bot layer's (non-strict, on the values rounded to one decimal
place). -/
theorem point_temperature_monotone_in_altitude (resort_id : String) (pt : ForecastPoint)
    (hpt : pt ∈ forecastsOf resort_id) (ltop lmid lbot : WeatherLayer)
    (htopm : ltop ∈ pt.layers) (hmidm : lmid ∈ pt.layers) (hbotm : lbot ∈ pt.layers)
    (htop : ltop.level = "Top") (hmid : lmid.level = "Mid") (hbot : lbot.level = "Bot") :
    ltop.temperature ≤ lmid.temperature ∧ lmid.temperature ≤ lbot.temperature := by
  by_cases hr : "sunshine_village" = resort_id
  case neg =>
    rw [forecastsOf_eq_nil resort_id hr] at hpt
    exact absurd hpt (List.not_mem_nil pt)
  case pos =>
    rw [← hr, forecastsOf_sunshine] at hpt
    obtain ⟨i, hi, rfl⟩ := List.mem_map.mp hpt
    dsimp only at htopm hmidm hbotm
    rw [entryBlock_layers] at htopm hmidm hbotm
    simp only [List.mem_cons, List.not_mem_nil, or_false] at htopm hmidm hbotm
    rcases htopm with rfl | rfl | rfl <;> rcases hmidm with rfl | rfl | rfl <;>
      rcases hbotm with rfl | rfl | rfl <;>
      first
        | exact absurd htop (by decide : ¬ ("Mid" = "Top"))
        | exact absurd htop (by decide : ¬ ("Bot" = "Top"))
        | exact absurd hmid (by decide : ¬ ("Top" = "Mid"))
        | exact absurd hmid (by decide : ¬ ("Bot" = "Mid"))
        | exact absurd hbot (by decide : ¬ ("Top" = "Bot"))
        | exact absurd hbot (by decide : ¬ ("Mid" = "Bot"))
        | (constructor <;> apply round1_mono <;> push_cast [sunshineVillage] <;> linarith)


/-- Witness for C1: the first Sunshine Village forecast point, with its
three layers, instantiates the theorem. -/
theorem point_temperature_monotone_in_altitude_witness :
    (sunshinePointAt 0 ∈ forecastsOf "sunshine_village") ∧
    (topLayerAt 0).level = "Top" ∧ (midLayerAt 0).level = "Mid" ∧
    (botLayerAt 0).level = "Bot" ∧
    (topLayerAt 0).temperature ≤ (midLayerAt 0).temperature ∧
    (midLayerAt 0).temperature ≤ (botLayerAt 0).temperature := by
  have hmem : sunshinePointAt 0 ∈ forecastsOf "sunshine_village" := by
    rw [forecastsOf_sunshine]
    exact List.mem_map_of_mem _ (by simp [periods])
  have htm : topLayerAt 0 ∈ (sunshinePointAt 0).layers := List.Mem.head _
  have hmm : midLayerAt 0 ∈ (sunshinePointAt 0).layers := List.Mem.tail _ (List.Mem.head _)
  have hbm : botLayerAt 0 ∈ (sunshinePointAt 0).layers :=
    List.Mem.tail _ (List.Mem.tail _ (List.Mem.head _))
  have h := point_temperature_monotone_in_altitude "sunshine_village" (sunshinePointAt 0) hmem
    (topLayerAt 0) (midLayerAt 0) (botLayerAt 0) htm hmm hbm rfl rfl rfl
  exact ⟨hmem, rfl, rfl, rfl, h.1, h.2⟩

/-- C6 counterexample: on an empty base series the generator does not
return an empty sequence — it still produces 12 ForecastPoints, because
the loop runs `periods = 12` times regardless of the series length. -/
theorem generator_empty_series_not_empty :
    (groupByTimestamp (generateCore sunshineVillage [] [])).length = 12 ∧
    (groupByTimestamp (generateCore sunshineVillage [] [])).length ≠ 0 := by
  rw [groupByTimestamp_generateCore]
  simp [periods]

/-- C6 (amended): for every base series (including the empty one) the
generator returns exactly `periods = 12` ForecastPoints, one per period
index in input order (timestamps `i * 3`), each with exactly 3 layers in
the fixed order Top, Mid, Bot; out-of-range indices fall back to
`t_bot = 0.0` and `p = 0.0`.  Since the deployed base series has exactly
12 entries, the deployed output length equals the base-series length. -/
theorem generator_always_twelve_points (r : Resort) (precip temps : List ℚ) :
    (groupByTimestamp (generateCore r precip temps)).length = periods ∧
    (groupByTimestamp (generateCore r precip temps)).map Prod.fst
      = (List.range periods).map (fun i => i * 3) ∧
    (∀ g ∈ groupByTimestamp (generateCore r precip temps),
      g.2.map WeatherLayer.level = ["Top", "Mid", "Bot"]) ∧
    base_temps_bot.length = periods ∧ precipSeries.length = periods ∧
    (forecastsOf "sunshine_village").length = base_temps_bot.length := by
  rw [groupByTimestamp_generateCore]
  refine ⟨by simp, by simp [expectedPoint], ?_, rfl, rfl, ?_⟩
  · intro g hg
    obtain ⟨i, hi, rfl⟩ := List.mem_map.mp hg
    rw [show (expectedPoint r precip temps i).2
        = (entryBlock r precip temps i).map dropTimestamp from rfl, entryBlock_layers]
    rfl
  · rw [forecastsOf_sunshine]
    simp [periods, base_temps_bot]

/-- Witness for C6: the amended theorem instantiated on the empty base
series, including its bounded-quantifier conjunct at the first point. -/
theorem generator_always_twelve_points_witness :
    (groupByTimestamp (generateCore sunshineVillage [] [])).length = periods ∧
    ((0 * 3, (entryBlock sunshineVillage ([] : List ℚ) ([] : List ℚ) 0).map dropTimestamp)
        ∈ groupByTimestamp (generateCore sunshineVillage [] [])) ∧
    ((entryBlock sunshineVillage ([] : List ℚ) ([] : List ℚ) 0).map dropTimestamp).map
        WeatherLayer.level = ["Top", "Mid", "Bot"] := by
  have hmem : (0 * 3, (entryBlock sunshineVillage ([] : List ℚ) ([] : List ℚ) 0).map dropTimestamp)
      ∈ groupByTimestamp (generateCore sunshineVillage [] []) := by
    rw [groupByTimestamp_generateCore]
    exact List.mem_map_of_mem _ (by simp [periods])
  have h := generator_always_twelve_points sunshineVillage [] []
  exact ⟨h.1, hmem, h.2.2.1 _ hmem⟩

lemma grouped_getD (r : Resort) (precip temps : List ℚ) (i : ℕ) (hi : i < periods) :
    (groupByTimestamp (generateCore r precip temps)).getD i (0, [])
      = expectedPoint r precip temps i := by
  rw [groupByTimestamp_generateCore, List.getD_eq_getElem?_getD, List.getElem?_map,
    List.getElem?_eq_getElem (by simpa using hi)]
  simp

/-- C4: for every resort of the catalog and every period index, the
generator derives the Mid temperature as
`t_bot - (altitudes.mid - altitudes.bot) / 1000 * 6.5` and the Top
temperature as `t_bot - (altitudes.top - altitudes.bot) / 1000 * 6.5`,
rounds each derived temperature (and `t_bot` itself) to one decimal
place, and classifies the rounded value. -/
theorem generator_lapse_formula_and_rounding (pr : String × Resort) (_hpr : pr ∈ RESORTS)
    (i : ℕ) (hi : i < periods) :
    ((groupByTimestamp (generateCore pr.2 precipSeries base_temps_bot)).getD i (0, [])).2.map
        (fun l => (l.level, l.temperature, l.condition)) =
      [("Top",
        round1 (base_temps_bot.getD i 0.0 -
          ((pr.2.altitudes.top - pr.2.altitudes.bot : ℤ) : ℚ) / 1000 * 6.5),
        (analyze_snow_condition
          (round1 (base_temps_bot.getD i 0.0 -
            ((pr.2.altitudes.top - pr.2.altitudes.bot : ℤ) : ℚ) / 1000 * 6.5))
          (precipSeries.getD i 0.0)).1),
       ("Mid",
        round1 (base_temps_bot.getD i 0.0 -
          ((pr.2.altitudes.mid - pr.2.altitudes.bot : ℤ) : ℚ) / 1000 * 6.5),
        (analyze_snow_condition
          (round1 (base_temps_bot.getD i 0.0 -
            ((pr.2.altitudes.mid - pr.2.altitudes.bot : ℤ) : ℚ) / 1000 * 6.5))
          (precipSeries.getD i 0.0)).1),
       ("Bot",
        round1 (base_temps_bot.getD i 0.0),
        (analyze_snow_condition (round1 (base_temps_bot.getD i 0.0))
          (precipSeries.getD i 0.0)).1)] := by
  rw [grouped_getD pr.2 precipSeries base_temps_bot i hi]
  rfl

/-- Witness for C4: the theorem instantiated at the catalog resort and
period index 1. -/
theorem generator_lapse_formula_and_rounding_witness :
    (("sunshine_village", sunshineVillage) ∈ RESORTS) ∧ 1 < periods ∧
    ((groupByTimestamp (generateCore sunshineVillage precipSeries base_temps_bot)).getD 1
        (0, [])).2.map (fun l => (l.level, l.temperature, l.condition)) =
      [("Top",
        round1 (base_temps_bot.getD 1 0.0 -
          ((sunshineVillage.altitudes.top - sunshineVillage.altitudes.bot : ℤ) : ℚ) / 1000 * 6.5),
        (analyze_snow_condition
          (round1 (base_temps_bot.getD 1 0.0 -
            ((sunshineVillage.altitudes.top - sunshineVillage.altitudes.bot : ℤ) : ℚ) / 1000 * 6.5))
          (precipSeries.getD 1 0.0)).1),
       ("Mid",
        round1 (base_temps_bot.getD 1 0.0 -
          ((sunshineVillage.altitudes.mid - sunshineVillage.altitudes.bot : ℤ) : ℚ) / 1000 * 6.5),
        (analyze_snow_condition
          (round1 (base_temps_bot.getD 1 0.0 -
            ((sunshineVillage.altitudes.mid - sunshineVillage.altitudes.bot : ℤ) : ℚ) / 1000 * 6.5))
          (precipSeries.getD 1 0.0)).1),
       ("Bot",
        round1 (base_temps_bot.getD 1 0.0),
        (analyze_snow_condition (round1 (base_temps_bot.getD 1 0.0))
          (precipSeries.getD 1 0.0)).1)] := by
  refine ⟨List.mem_cons_self _ _, by norm_num [periods], ?_⟩
  exact generator_lapse_formula_and_rounding ("sunshine_village", sunshineVillage)
    (List.mem_cons_self _ _) 1 (by norm_num [periods])

lemma forecastsOf_sunshine_getD (i : ℕ) (hi : i < periods) :
    (forecastsOf "sunshine_village").getD i ⟨0, []⟩
      = ⟨i * 3, (entryBlock sunshineVillage precipSeries base_temps_bot i).map dropTimestamp⟩ := by
  rw [forecastsOf_sunshine, List.getD_eq_getElem?_getD, List.getElem?_map,
    List.getElem?_eq_getElem (by simpa using hi)]
  simp

/-- C5: for the Sunshine Village profile (top 2730, mid 2200, bot 1660),
the base-series entry with bottom temperature `0.0` and precipitation
`2.5` (period index 1) yields rounded temperatures Top `-7.0`,
Mid `-3.5`, Bot `0.0` and conditions Top "Powder", Mid "Powder",
Bot "Snow". -/
theorem sunshine_village_example_point :
    base_temps_bot.getD 1 0.0 = 0.0 ∧ precipSeries.getD 1 0.0 = 2.5 ∧
    ((forecastsOf "sunshine_village").getD 1 ⟨0, []⟩).layers.map
        (fun l => (l.level, l.temperature, l.condition)) =
      [("Top", -7.0, "Powder"), ("Mid", -3.5, "Powder"), ("Bot", 0.0, "Snow")] := by
  refine ⟨rfl, rfl, ?_⟩
  rw [forecastsOf_sunshine_getD 1 (by norm_num [periods])]
  show (List.map dropTimestamp (entryBlock sunshineVillage precipSeries base_temps_bot 1)).map
      (fun l => (l.level, l.temperature, l.condition)) = _
  rw [entryBlock_layers]
  have ht : base_temps_bot.getD 1 0.0 = 0.0 := rfl
  have hp : precipSeries.getD 1 0.0 = 2.5 := rfl
  rw [ht, hp]
  have htop : (0.0 : ℚ) -
      ((sunshineVillage.altitudes.top - sunshineVillage.altitudes.bot : ℤ) : ℚ) / 1000 * 6.5
      = -6955/1000 := by
    norm_num [sunshineVillage]
  have hmid : (0.0 : ℚ) -
      ((sunshineVillage.altitudes.mid - sunshineVillage.altitudes.bot : ℤ) : ℚ) / 1000 * 6.5
      = -351/100 := by
    norm_num [sunshineVillage]
  rw [htop, hmid]
  have r1 : round1 (-6955/1000 : ℚ) = -7.0 := by
    rw [round1_eq_down (-6955/1000 : ℚ) (-70) (by norm_num) (by norm_num)]
    norm_num
  have r2 : round1 (-351/100 : ℚ) = -3.5 := by
    rw [round1_eq_up (-351/100 : ℚ) (-36) (by norm_num) (by norm_num)]
    norm_num
  have r3 : round1 (0.0 : ℚ) = 0.0 := by
    rw [round1_eq_down (0.0 : ℚ) 0 (by norm_num) (by norm_num)]
    norm_num
  rw [r1, r2, r3]
  have c1 : analyze_snow_condition (-7.0) 2.5 = ("Powder", iconPowder) :=
    analyze_eq_powder _ _ (by norm_num) (by norm_num) (by norm_num)
  have c2 : analyze_snow_condition (-3.5) 2.5 = ("Powder", iconPowder) :=
    analyze_eq_powder _ _ (by norm_num) (by norm_num) (by norm_num)
  have c3 : analyze_snow_condition (0.0) 2.5 = ("Snow", iconSnow) :=
    analyze_eq_snow _ _ (by norm_num) (by norm_num) (by norm_num)
  rw [c1, c2, c3]
  rfl

/-- C2 counterexample: at `(-12, 5.0)` the classifier does not return the
icon string written in the spec.  The code's icon is U+2744 U+FE0F U+1F48E
(with the emoji presentation selector); the spec writes U+2744 U+1F48E. -/
theorem classifier_champagne_icon_differs_from_spec :
    analyze_snow_condition (-12) 5.0 ≠ ("Champagne Powder", specIconChampagne) := by
  rw [analyze_eq_champagne (-12) 5.0 (by norm_num) (by norm_num)]
  decide

/-- C2 (amended): for every precipitation of at least 0.1, the classifier
implements the temperature band table, first match wins, boundaries
inclusive on the upper side, with the stated labels; the icons are the
spec's icons with the emoji presentation selector U+FE0F after U+2601,
U+2744, U+1F328 and U+1F327.  The four boundary evaluations hold with
those icons. -/
theorem classifier_band_table (t p : ℚ) (hp : 0.1 ≤ p) :
    (t ≤ -12 → analyze_snow_condition t p = ("Champagne Powder", iconChampagne)) ∧
    (-12 < t → t ≤ -3 → analyze_snow_condition t p = ("Powder", iconPowder)) ∧
    (-3 < t → t ≤ 0.5 → analyze_snow_condition t p = ("Snow", iconSnow)) ∧
    (0.5 < t → t ≤ 2.0 → analyze_snow_condition t p = ("Wet Snow/Sleet", iconSleet)) ∧
    (2.0 < t → analyze_snow_condition t p = ("Rain", iconRain)) ∧
    analyze_snow_condition (-12) 5.0 = ("Champagne Powder", iconChampagne) ∧
    analyze_snow_condition 0.5 5.0 = ("Snow", iconSnow) ∧
    analyze_snow_condition 2.0 5.0 = ("Wet Snow/Sleet", iconSleet) ∧
    analyze_snow_condition 2.01 5.0 = ("Rain", iconRain) :=
  ⟨fun h => analyze_eq_champagne t p hp h,
   fun h1 h2 => analyze_eq_powder t p hp h1 h2,
   fun h1 h2 => analyze_eq_snow t p hp h1 h2,
   fun h1 h2 => analyze_eq_sleet t p hp h1 h2,
   fun h1 => analyze_eq_rain t p hp h1,
   analyze_eq_champagne _ _ (by norm_num) (by norm_num),
   analyze_eq_snow _ _ (by norm_num) (by norm_num) (by norm_num),
   analyze_eq_sleet _ _ (by norm_num) (by norm_num) (by norm_num),
   analyze_eq_rain _ _ (by norm_num) (by norm_num)⟩

/-- Witness for C2: the band table instantiated at `(-13, 5.0)`. -/
theorem classifier_band_table_witness :
    (0.1 : ℚ) ≤ 5.0 ∧ (-13 : ℚ) ≤ -12 ∧
    analyze_snow_condition (-13) 5.0 = ("Champagne Powder", iconChampagne) :=
  ⟨by norm_num, by norm_num, (classifier_band_table (-13) 5.0 (by norm_num)).1 (by norm_num)⟩

/-- C3 counterexample: at `(-20, 0.0)` the classifier does not return the
pair written in the spec: the code's icon is U+2601 U+FE0F (with the emoji
presentation selector), the spec writes bare U+2601. -/
theorem classifier_cloudy_icon_differs_from_spec :
    analyze_snow_condition (-20) 0.0 ≠ ("Cloudy/Clear", specIconCloud) := by
  rw [analyze_eq_cloudy (-20) 0.0 (by norm_num)]
  decide

/-- C3 (amended): for every temperature, precipitation below 0.1 gives
`("Cloudy/Clear", ·)` with the code's cloud icon U+2601 U+FE0F; in
particular at `(-20, 0.0)`. -/
theorem classifier_low_precip_cloudy (t p : ℚ) (hp : p < 0.1) :
    analyze_snow_condition t p = ("Cloudy/Clear", iconCloud) ∧
    analyze_snow_condition (-20) 0.0 = ("Cloudy/Clear", iconCloud) :=
  ⟨analyze_eq_cloudy t p hp, analyze_eq_cloudy _ _ (by norm_num)⟩

/-- Witness for C3: instantiated at `(-20, 0.0)`. -/
theorem classifier_low_precip_cloudy_witness :
    (0.0 : ℚ) < 0.1 ∧ analyze_snow_condition (-20) 0.0 = ("Cloudy/Clear", iconCloud) :=
  ⟨by norm_num, (classifier_low_precip_cloudy (-20) 0.0 (by norm_num)).1⟩

/-- C7: for every resort id not in the catalog, the weather endpoint
returns the 404 error with detail "Resort not found"; the result is the
bare error, produced before the generator or classifier run, so no
forecast data is computed for the request. -/
theorem unknown_resort_yields_not_found (resort_id : String)
    (h : resort_id ∉ RESORTS.map Prod.fst) :
    get_weather resort_id = Except.error { status_code := 404, detail := "Resort not found" } := by
  simp [get_weather, resortsGet_eq_none resort_id h]

/-- Witness for C7: instantiated at the unknown id "whistler". -/
theorem unknown_resort_yields_not_found_witness :
    "whistler" ∉ RESORTS.map Prod.fst ∧
    get_weather "whistler" = Except.error { status_code := 404, detail := "Resort not found" } :=
  ⟨by decide, unknown_resort_yields_not_found "whistler" (by decide)⟩

/-- C8: the classifier is total: every temperature and precipitation
falls into exactly one branch of the decision table, and the result is
always one of the six `(condition, icon)` rows. -/
theorem classifier_total_function (t p : ℚ) :
    analyze_snow_condition t p ∈
      [("Cloudy/Clear", iconCloud), ("Champagne Powder", iconChampagne),
       ("Powder", iconPowder), ("Snow", iconSnow),
       ("Wet Snow/Sleet", iconSleet), ("Rain", iconRain)] := by
  dsimp only [analyze_snow_condition]
  split_ifs <;> simp


/-- C9: the resort listing returns all catalog entries' id, name and
location, in registration order, and an empty catalog yields an empty
listing without error. -/
theorem resort_listing_complete_ordered (catalog : List (String × Resort)) :
    (get_resorts catalog).length = catalog.length ∧
    (∀ i, i < catalog.length →
      (get_resorts catalog).getD i blankListing =
        { id := (catalog.getD i blankResortPair).1
          name := (catalog.getD i blankResortPair).2.name
          location := (catalog.getD i blankResortPair).2.location }) ∧
    get_resorts [] = [] := by
  refine ⟨by simp [get_resorts], ?_, rfl⟩
  intro i hi
  rw [get_resorts, List.getD_eq_getElem?_getD, List.getElem?_map,
    List.getElem?_eq_getElem hi, List.getD_eq_getElem?_getD,
    List.getElem?_eq_getElem hi]
  simp

/-- Witness for C9: instantiated at the deployed catalog, index 0, and
at the empty catalog. -/
theorem resort_listing_complete_ordered_witness :
    0 < RESORTS.length ∧
    (get_resorts RESORTS).getD 0 blankListing =
      { id := (RESORTS.getD 0 blankResortPair).1
        name := (RESORTS.getD 0 blankResortPair).2.name
        location := (RESORTS.getD 0 blankResortPair).2.location } ∧
    get_resorts [] = [] := by
  refine ⟨by norm_num [RESORTS], ?_, (resort_listing_complete_ordered []).2.2⟩
  exact (resort_listing_complete_ordered RESORTS).2.1 0 (by norm_num [RESORTS])

/-- C10: called directly with a resort id not in the catalog, the
generator returns the empty list (no layer records, no error). -/
theorem generator_unknown_resort_empty (resort_id : String)
    (h : resort_id ∉ RESORTS.map Prod.fst) :
    generate_mock_weather_data resort_id = [] := by
  simp [generate_mock_weather_data, resortsGet_eq_none resort_id h]

/-- Witness for C10: instantiated at the unknown id "kitzbuehel". -/
theorem generator_unknown_resort_empty_witness :
    "kitzbuehel" ∉ RESORTS.map Prod.fst ∧ generate_mock_weather_data "kitzbuehel" = [] :=
  ⟨by decide, generator_unknown_resort_empty "kitzbuehel" (by decide)⟩
